import Mathlib

/-!
# node-ci-cd: the single-route HTTP responder of `index.js`

`index.js` is eleven lines: it creates an Express application, registers one
handler with `app.get("/", ...)` whose body is `res.send("Hello, DevOps with CI/CD!")`,
fixes `const PORT = 3000` and calls `app.listen(PORT, callback)` where the callback
logs the startup line.

The development has two layers.

* **Program layer** (`handler`, `PORT`, `startupCallback`, `index`): a line-by-line
  embedding of `index.js`.
* **Library layer** (`ServerResponse.send`, `ServerResponse.fresh`, `fresh`,
  `Route.handlesMethod`, `Route.dispatch`, `Router.next`, `finalhandler`, `express`,
  `App.get`, `App.listen`): the part of the Express API that `index.js` calls,
  embedded at the level of detail that decides what a request receives: method
  dispatch (with the automatic `HEAD` and `OPTIONS` treatment of the router), path
  matching under the default routing options, `res.send` for a string body (default
  content type, entity tag, cache freshness, `HEAD`), and the default not-found
  response.  Response headers that no statement below speaks about (`X-Powered-By`,
  `Content-Length`, `Date`, ...) are not represented.

`index.js` obtains the library with `require("express")` and pins no version, so the
library layer takes the major version (`Major`) as a parameter and follows both
release lines where they differ for this program: the path matcher (`matchPath`),
the freshness rule (`fresh`) and the automatic `OPTIONS` answer
(`sendOptionsResponse`).  Every statement below is made for both.

Requests are taken after the HTTP parser: a method out of the parser's method table,
the pathname and the query string of the request target, the header table with
lower-cased names, and the body.

Only the successful bind is modelled (`Process.listening`).
-/

set_option autoImplicit false

namespace NodeCiCd

/-! ## The library version -/

/-- The major version of the Express library that `require("express")` resolves to
when the program starts. -/
inductive Major where
  | v4
  | v5
  deriving DecidableEq, Repr

/-! ## Requests -/

/-- The request methods the HTTP parser of the runtime accepts (`http.METHODS`). -/
inductive Method where
  | ACL | BIND | CHECKOUT | CONNECT | COPY | DELETE | GET | HEAD | LINK | LOCK
  | MSEARCH | MERGE | MKACTIVITY | MKCALENDAR | MKCOL | MOVE | NOTIFY | OPTIONS
  | PATCH | POST | PROPFIND | PROPPATCH | PURGE | PUT | REBIND | REPORT | SEARCH
  | SOURCE | SUBSCRIBE | TRACE | UNBIND | UNLINK | UNLOCK | UNSUBSCRIBE
  deriving DecidableEq, Repr

/-- Spelling of a method on the wire, as `req.method` holds it. -/
def Method.name : Method → String
  | .ACL => "ACL" | .BIND => "BIND" | .CHECKOUT => "CHECKOUT" | .CONNECT => "CONNECT"
  | .COPY => "COPY" | .DELETE => "DELETE" | .GET => "GET" | .HEAD => "HEAD"
  | .LINK => "LINK" | .LOCK => "LOCK" | .MSEARCH => "M-SEARCH" | .MERGE => "MERGE"
  | .MKACTIVITY => "MKACTIVITY" | .MKCALENDAR => "MKCALENDAR" | .MKCOL => "MKCOL"
  | .MOVE => "MOVE" | .NOTIFY => "NOTIFY" | .OPTIONS => "OPTIONS" | .PATCH => "PATCH"
  | .POST => "POST" | .PROPFIND => "PROPFIND" | .PROPPATCH => "PROPPATCH"
  | .PURGE => "PURGE" | .PUT => "PUT" | .REBIND => "REBIND" | .REPORT => "REPORT"
  | .SEARCH => "SEARCH" | .SOURCE => "SOURCE" | .SUBSCRIBE => "SUBSCRIBE"
  | .TRACE => "TRACE" | .UNBIND => "UNBIND" | .UNLINK => "UNLINK" | .UNLOCK => "UNLOCK"
  | .UNSUBSCRIBE => "UNSUBSCRIBE"

/-- An inbound request as the application sees it.  `path` is the pathname of the
request target (what `req.path` returns, the query string already split off); a
request target is never empty and neither is its pathname, which `path_ne` records.
`headers` is `req.headers`: field names in lower case. -/
structure Request where
  method : Method
  path : String
  path_ne : path ≠ ""
  query : String
  headers : List (String × String)
  body : String

/-- Value of a request header, `req.headers[name]`; an absent header and an empty one
are both falsy in the tests of the library, so both read as `""` here. -/
def Request.header (req : Request) (name : String) : String :=
  (req.headers.lookup name).getD ""

/-! ## Entity tags (`etag` package, used by `res.send`) -/

/-- Rotate a 32-bit word left by `n` bits. -/
def rotl32 (x n : Nat) : Nat :=
  ((x <<< n) ||| (x >>> (32 - n))) % 2 ^ 32

/-- Big-endian bytes of `n`, `k` of them. -/
def beBytes (k n : Nat) : List Nat :=
  (List.range k).map (fun i => (n >>> (8 * (k - 1 - i))) % 256)

/-- Big-endian value of a list of bytes. -/
def beValue (bs : List Nat) : Nat :=
  bs.foldl (fun acc b => acc * 256 + b) 0

/-- SHA-1 padding: a `0x80` byte, zero bytes up to 56 modulo 64, the bit length. -/
def sha1Pad (msg : List Nat) : List Nat :=
  msg ++ [0x80] ++ List.replicate ((119 - msg.length % 64) % 64) 0 ++ beBytes 8 (8 * msg.length)

/-- The eighty-word message schedule of one 64-byte block. -/
def sha1Schedule (block : List Nat) : Array Nat :=
  let w0 : Array Nat := ((List.range 16).map (fun i => beValue ((block.drop (4 * i)).take 4))).toArray
  (List.range 64).foldl
    (fun w j =>
      let i := j + 16
      w.push (rotl32 (w[i - 3]! ^^^ w[i - 8]! ^^^ w[i - 14]! ^^^ w[i - 16]!) 1))
    w0

/-- One round of the SHA-1 compression function on the working variables. -/
def sha1Round (w : Array Nat) (s : Nat × Nat × Nat × Nat × Nat) (i : Nat) :
    Nat × Nat × Nat × Nat × Nat :=
  let (a, b, c, d, e) := s
  let nb := b ^^^ (2 ^ 32 - 1)
  let (f, k) :=
    if i < 20 then ((b &&& c) ||| (nb &&& d), 0x5A827999)
    else if i < 40 then (b ^^^ c ^^^ d, 0x6ED9EBA1)
    else if i < 60 then ((b &&& c) ||| (b &&& d) ||| (c &&& d), 0x8F1BBCDC)
    else (b ^^^ c ^^^ d, 0xCA62C1D6)
  ((rotl32 a 5 + f + e + k + w[i]!) % 2 ^ 32, a, rotl32 b 30, c, d)

/-- Fold one 64-byte block into the hash state. -/
def sha1Block (h : Nat × Nat × Nat × Nat × Nat) (block : List Nat) :
    Nat × Nat × Nat × Nat × Nat :=
  let w := sha1Schedule block
  let (a, b, c, d, e) := (List.range 80).foldl (sha1Round w) h
  let (h0, h1, h2, h3, h4) := h
  ((h0 + a) % 2 ^ 32, (h1 + b) % 2 ^ 32, (h2 + c) % 2 ^ 32, (h3 + d) % 2 ^ 32,
    (h4 + e) % 2 ^ 32)

/-- SHA-1 digest (twenty bytes) of a byte string. -/
def sha1 (msg : List Nat) : List Nat :=
  let padded := sha1Pad msg
  let blocks := (List.range (padded.length / 64)).map (fun i => (padded.drop (64 * i)).take 64)
  let (h0, h1, h2, h3, h4) :=
    blocks.foldl sha1Block (0x67452301, 0xEFCDAB89, 0x98BADCFE, 0x10325476, 0xC3D2E1F0)
  beBytes 4 h0 ++ beBytes 4 h1 ++ beBytes 4 h2 ++ beBytes 4 h3 ++ beBytes 4 h4

/-- The base64 alphabet. -/
def base64Alphabet : List Char :=
  "ABCDEFGHIJKLMNOPQRSTUVWXYZabcdefghijklmnopqrstuvwxyz0123456789+/".data

/-- Base64 digit of a six-bit value. -/
def base64Digit (n : Nat) : Char :=
  base64Alphabet.getD n '='

/-- Standard base64 with `=` padding. -/
def base64 : List Nat → List Char
  | [] => []
  | [a] => [base64Digit (a / 4), base64Digit (a % 4 * 16), '=', '=']
  | [a, b] => [base64Digit (a / 4), base64Digit (a % 4 * 16 + b / 16), base64Digit (b % 16 * 4), '=']
  | a :: b :: c :: rest =>
    base64Digit (a / 4) :: base64Digit (a % 4 * 16 + b / 16) ::
      base64Digit (b % 16 * 4 + c / 64) :: base64Digit (c % 64) :: base64 rest

/-- UTF-8 bytes of a string. -/
def utf8Bytes (s : String) : List Nat :=
  s.data.flatMap (fun c => (String.utf8EncodeChar c).map UInt8.toNat)

/-- Strong entity tag of a body (`entitytag` of the `etag` package): the byte length
in hexadecimal, a dash, and the first 27 base64 characters of the SHA-1 digest. -/
def entitytag (body : String) : String :=
  if body.isEmpty then "\"0-2jmj7l5rSw0yVb/vlWAYkK/YBwk\""
  else
    let bytes := utf8Bytes body
    "\"" ++ String.mk (Nat.toDigits 16 bytes.length) ++ "-" ++
      String.mk ((base64 (sha1 bytes)).take 27) ++ "\""

/-- The default `etag fn` setting of an Express application: weak entity tags. -/
def weakETag (body : String) : String :=
  "W/" ++ entitytag body

/-! ## Conditional requests (`fresh` package, read through `req.fresh`) -/

/-- Split a character list at every comma. -/
def splitOnComma : List Char → List (List Char)
  | [] => [[]]
  | c :: cs =>
    match splitOnComma cs with
    | [] => [[]]
    | seg :: segs => if c = ',' then [] :: seg :: segs else (c :: seg) :: segs

/-- Drop the characters satisfying `p` from both ends. -/
def trimBoth (p : Char → Bool) (cs : List Char) : List Char :=
  ((cs.dropWhile p).reverse.dropWhile p).reverse

/-- The whitespace class `\s` of the regular expressions of the language. -/
def isRegexSpace (c : Char) : Bool :=
  let n := c.toNat
  (9 ≤ n && n ≤ 13) || n = 0x20 || n = 0xA0 || n = 0x1680 || (0x2000 ≤ n && n ≤ 0x200A) ||
    n = 0x2028 || n = 0x2029 || n = 0x202F || n = 0x205F || n = 0x3000 || n = 0xFEFF

/-- `CACHE_CONTROL_NO_CACHE_REGEXP.test`: some comma-separated directive of the
`Cache-Control` value is, whitespace aside, exactly `no-cache`. -/
def hasNoCache (cacheControl : String) : Bool :=
  (splitOnComma cacheControl.data).any (fun seg => trimBoth isRegexSpace seg == "no-cache".data)

/-- `parseTokenList`: the comma-separated tokens with surrounding spaces removed. -/
def parseTokenList (str : String) : List String :=
  (splitOnComma str.data).map (fun seg => String.mk (trimBoth (fun c => c == ' ') seg))

/-- The entity-tag test of `fresh`: with no response tag the validator is stale;
otherwise it is stale unless some token of `If-None-Match` equals the tag, weakness
marker aside. -/
def etagStale (ifNoneMatch : String) (etag : Option String) : Bool :=
  match etag with
  | none => true
  | some tag =>
    !(parseTokenList ifNoneMatch).any
      (fun m => m == tag || m == "W/" ++ tag || "W/" ++ m == tag)

/-- `fresh(reqHeaders, resHeaders)` of the `fresh` package, for a response that has
the entity tag `etag` (if any) and no `Last-Modified` header: `res.send` never sets
one, so an `If-Modified-Since` validator on its own is always stale.  An
unconditional request and one with `Cache-Control: no-cache` are never fresh.  After
that version 4 requires every validator present to pass, while in version 5
`If-None-Match`, when present, decides alone. -/
def fresh (major : Major) (ifModifiedSince ifNoneMatch cacheControl : String)
    (etag : Option String) : Bool :=
  if ifModifiedSince = "" ∧ ifNoneMatch = "" then false
  else if cacheControl ≠ "" ∧ hasNoCache cacheControl = true then false
  else
    match major with
    | .v4 =>
      if ifNoneMatch ≠ "" ∧ ifNoneMatch ≠ "*" ∧ etagStale ifNoneMatch etag = true then false
      else if ifModifiedSince ≠ "" then false
      else true
    | .v5 =>
      if ifNoneMatch ≠ "" then
        (if ifNoneMatch = "*" then true else !etagStale ifNoneMatch etag)
      else false

/-! ## Responses (`res`) -/

/-- Body bytes of a response.  `errorDocument m r` stands for the HTML page that
`finalhandler` builds around the message `Cannot <m> <r>` (a document that begins
with `<!DOCTYPE html>`); its markup and the escaping of `r` are not expanded. -/
inductive Body where
  | text (s : String)
  | errorDocument (method : Method) (resource : String)
  deriving DecidableEq, Repr

/-- What is put on the wire for a request: status line, the headers the statements
below speak about, and the body. -/
structure Response where
  statusCode : Nat
  contentType : Option String
  etag : Option String
  allow : Option String
  body : Body
  deriving DecidableEq, Repr

/-- Application settings read while a request is served. -/
structure Settings where
  major : Major
  env : String
  etagFn : Option (String → String)

/-- The response object handed to a handler: `res.req`, `res.app` and the response
under construction. -/
structure ServerResponse where
  req : Request
  app : Settings
  out : Response

/-- A fresh `res`: status 200, no headers, no body yet. -/
def ServerResponse.init (app : Settings) (req : Request) : ServerResponse :=
  { req := req, app := app,
    out := { statusCode := 200, contentType := none, etag := none, allow := none,
             body := .text "" } }

/-- The getter `req.fresh`: only `GET` and `HEAD`, only for a 2xx or 304 status, and
then what `fresh` says of the request headers against the response entity tag. -/
def ServerResponse.fresh (res : ServerResponse) : Bool :=
  if res.req.method ≠ .GET ∧ res.req.method ≠ .HEAD then false
  else if (200 ≤ res.out.statusCode ∧ res.out.statusCode < 300) ∨ res.out.statusCode = 304 then
    NodeCiCd.fresh res.app.major (res.req.header "if-modified-since")
      (res.req.header "if-none-match") (res.req.header "cache-control") res.out.etag
  else false

/-- The method `res.send(body)` for a string body.  In order: default the content
type to HTML in UTF-8 (a type already set is kept), generate the entity tag unless
one is set, turn the status into 304 when the request is fresh, strip the content
type and the body for 204 and 304 (the body also for 205), and end the response,
without body bytes when the request method is `HEAD`. -/
def ServerResponse.send (res : ServerResponse) (body : String) : ServerResponse :=
  let r1 : Response :=
    { res.out with contentType := some (res.out.contentType.getD "text/html; charset=utf-8") }
  let r2 : Response :=
    match r1.etag, res.app.etagFn with
    | none, some f => { r1 with etag := some (f body) }
    | _, _ => r1
  let r3 : Response :=
    if ServerResponse.fresh { res with out := r2 } then { r2 with statusCode := 304 } else r2
  let strip : Bool := r3.statusCode = 204 ∨ r3.statusCode = 304
  let r4 : Response := if strip then { r3 with contentType := none } else r3
  let chunk : String := if strip ∨ r3.statusCode = 205 then "" else body
  { res with out := { r4 with body := .text (if res.req.method = .HEAD then "" else chunk) } }

/-- The `finalhandler` callback reached when no route answered and no error was
raised: status 404, an HTML content type, and the error document, or no body bytes
for `HEAD`.  Headers set before are kept. -/
def finalhandler (res : ServerResponse) : ServerResponse :=
  { res with
    out := { res.out with
      statusCode := 404
      contentType := some "text/html; charset=utf-8"
      body := if res.req.method = .HEAD then .text ""
              else .errorDocument res.req.method res.req.path } }

/-! ## Routing (`Route`, `Router`) -/

/-- A request handler: it receives `req` and `res` and ends the response. -/
abbrev Handler := Request → ServerResponse → ServerResponse

/-- One layer of a route: the method it was registered for and its handler. -/
structure Layer where
  method : Method
  handle : Handler

/-- A route: a literal path and the layers registered on it. -/
structure Route where
  path : String
  stack : List Layer

/-- The methods a route has a layer for (`route.methods`). -/
def Route.methods (r : Route) : List Method :=
  r.stack.map (fun l => l.method)

/-- The method a request is dispatched under: `HEAD` falls back to `GET` when the
route has no `HEAD` layer of its own. -/
def Route.dispatchMethod (r : Route) (m : Method) : Method :=
  if m = .HEAD ∧ Method.HEAD ∉ r.methods then .GET else m

/-- `route._handles_method(method)`. -/
def Route.handlesMethod (r : Route) (m : Method) : Bool :=
  decide (r.dispatchMethod m ∈ r.methods)

/-- `route._options()`: the methods of the route, and `HEAD` when it is implied by
`GET`. -/
def Route.options (r : Route) : List Method :=
  r.methods.eraseDups ++
    (if Method.GET ∈ r.methods ∧ Method.HEAD ∉ r.methods then [Method.HEAD] else [])

/-- `route.dispatch`: run the first layer registered for the dispatch method; `none`
when the stack has no such layer and control returns to the router. -/
def Route.dispatch (r : Route) (req : Request) (res : ServerResponse) : Option ServerResponse :=
  (r.stack.find? (fun l => decide (l.method = r.dispatchMethod req.method))).map
    (fun l => l.handle req res)

/-- Lower-case a string on the ASCII letters. -/
def lowerAscii (cs : List Char) : List Char :=
  cs.map Char.toLower

/-- Remove the slashes at the end of a path. -/
def stripTrailingSlashes (cs : List Char) : List Char :=
  (cs.reverse.dropWhile (fun c => c == '/')).reverse

/-- Whether a literal route path matches a pathname under the default routing
options (not strict, not case sensitive, anchored at both ends), letter case aside.

* Version 4 compiles the route path with its last slash, or else an added slash,
  optional: the pathname is the route path without its final slash, or that followed
  by one slash.  For the route `/` this is the pathname `/` (the empty pathname does
  not occur).
* Version 5 strips the trailing slashes of every route path but `/` and allows one
  more slash after it: the pathname is the stripped route path, or that followed by
  one slash.  For the route `/` these are the pathnames `/` and `//`. -/
def matchPath (major : Major) (route pathname : String) : Bool :=
  let base :=
    match major with
    | .v4 => if route.data.getLast? = some '/' then route.data.dropLast else route.data
    | .v5 => if route.data = ['/'] then route.data else stripTrailingSlashes route.data
  lowerAscii pathname.data == lowerAscii base ||
    lowerAscii pathname.data == lowerAscii (base ++ ['/'])

/-- Add the methods of `addition` that `list` does not have yet. -/
def appendMethods (list addition : List Method) : List Method :=
  addition.foldl (fun acc m => if m ∈ acc then acc else acc ++ [m]) list

/-- Order of two strings by character code, as the default `sort` compares them. -/
def charsLe : List Char → List Char → Bool
  | [], _ => true
  | _ :: _, [] => false
  | a :: as, b :: bs => a.toNat < b.toNat || (a.toNat == b.toNat && charsLe as bs)

/-- Insert a string into a sorted list. -/
def insertSorted (x : String) : List String → List String
  | [] => [x]
  | y :: ys => if charsLe x.data y.data then x :: y :: ys else y :: insertSorted x ys

/-- Sort strings in ascending order. -/
def sortStrings (xs : List String) : List String :=
  xs.foldr insertSorted []

/-- The automatic answer to `OPTIONS` for the collected methods.

* Version 4: the methods, joined by a comma, go into the `Allow` header and, through
  `res.send`, into the body.
* Version 5: the methods, sorted and joined by a comma and a space, go into the
  `Allow` header and into the body, which is written directly as `text/plain`. -/
def sendOptionsResponse (res : ServerResponse) (options : List Method) : ServerResponse :=
  match res.app.major with
  | .v4 =>
    let body := ",".intercalate (options.map Method.name)
    ServerResponse.send { res with out := { res.out with allow := some body } } body
  | .v5 =>
    let allow := ", ".intercalate (sortStrings (options.map Method.name))
    { res with out := { res.out with
        allow := some allow, contentType := some "text/plain", body := .text allow } }

/-- The loop of `router.handle` over the routes in registration order.  A route whose
path matches and that handles the method is dispatched; one whose path matches but
that does not handle the method contributes its methods to the `OPTIONS` answer.
When the routes are exhausted an `OPTIONS` request with collected methods gets the
automatic answer and every other request goes to `finalhandler`.  (Version 5 collects
the methods with repetitions and removes them when it answers, to the same effect.) -/
def Router.next : List Route → Request → ServerResponse → List Method → ServerResponse
  | [], req, res, options =>
    if req.method = .OPTIONS ∧ options ≠ [] then sendOptionsResponse res options
    else finalhandler res
  | route :: rest, req, res, options =>
    if matchPath res.app.major route.path req.path then
      if route.handlesMethod req.method then
        match route.dispatch req res with
        | some done => done
        | none => Router.next rest req res options
      else
        Router.next rest req res
          (if req.method = .OPTIONS then appendMethods options route.options else options)
    else Router.next rest req res options

/-! ## The application object (`express()`, `app.get`, `app.listen`) -/

/-- What a process is started with: environment variables, command-line arguments
and the files it could read. -/
structure Env where
  vars : List (String × String)
  argv : List String
  files : List (String × String)

/-- An Express application: its settings and the routes of its router. -/
structure App where
  settings : Settings
  router : List Route

/-- The call `express()` on the installed library: default settings (the `env`
setting is `NODE_ENV`, or `development` when that is unset or empty; weak entity
tags) and no routes. -/
def express (major : Major) (env : Env) : App :=
  let nodeEnv := (env.vars.lookup "NODE_ENV").getD ""
  { settings := { major := major,
                  env := if nodeEnv = "" then "development" else nodeEnv,
                  etagFn := some weakETag },
    router := [] }

/-- The call `app.get(path, handler)`: a new route for `path` with one `GET` layer,
appended to the router. -/
def App.get (app : App) (path : String) (h : Handler) : App :=
  { app with router := app.router ++ [{ path := path, stack := [{ method := .GET, handle := h }] }] }

/-- The function `app.handle(req, res)`: what a request is answered with. -/
def App.handle (app : App) (req : Request) : Response :=
  (Router.next app.router req (ServerResponse.init app.settings req) []).out

/-- Lines written to standard output. -/
abbrev Console := List String

/-- The call `console.log(line)`. -/
def Console.log (out : Console) (line : String) : Console :=
  out ++ [line]

/-- The server `app.listen` returns: the application, the port handed to `listen`,
and the one-shot listeners of the `listening` event. -/
structure Server where
  app : App
  port : Nat
  onListening : List (Console → Console)

/-- The call `app.listen(port, callback)`: create the server, ask for the port, and
register `callback` for the `listening` event. -/
def App.listen (app : App) (port : Nat) (callback : Console → Console) : Server :=
  { app := app, port := port, onListening := [callback] }

/-- A running process: its server and what it has written so far. -/
structure Process where
  server : Server
  stdout : Console

/-- The `listening` event, raised once the port is bound: every one-shot listener
runs and is removed. -/
def Process.listening (p : Process) : Process :=
  { server := { p.server with onListening := [] },
    stdout := p.server.onListening.foldl (fun out cb => cb out) p.stdout }

/-- Serve one request: the application answers; nothing else changes. -/
def Process.request (p : Process) (req : Request) : Process × Response :=
  (p, p.server.app.handle req)

/-- Serve a sequence of requests in order, collecting the responses. -/
def Process.run : Process → List Request → Process × List Response
  | p, [] => (p, [])
  | p, req :: rest =>
    let (p1, r) := p.request req
    let (p2, rs) := Process.run p1 rest
    (p2, r :: rs)

/-! ## The program: `index.js` -/

/-- The handler registered for `GET /`: `(req, res) => res.send("Hello, DevOps with CI/CD!")`. -/
def handler : Handler :=
  fun _req res => res.send "Hello, DevOps with CI/CD!"

/-- The constant `const PORT = 3000`. -/
def PORT : Nat := 3000

/-- The callback given to `listen`: it logs the startup line with `PORT` spliced in. -/
def startupCallback : Console → Console :=
  fun out => out.log ("Server running on port " ++ toString PORT)

/-- The module top level, run on the installed library `major`: create the
application, register the handler, listen. -/
def index (major : Major) (env : Env) : Process :=
  let app := express major env
  let app := app.get "/" handler
  { server := app.listen PORT startupCallback, stdout := [] }

/-- The greeting the handler sends. -/
def greeting : String := "Hello, DevOps with CI/CD!"

/-- Whether `res.send(body)` finds a `GET` or `HEAD` request fresh: the verdict of
`fresh` on the request's validators against the entity tag generated for `body`. -/
def Request.revalidates (req : Request) (major : Major) (body : String) : Bool :=
  fresh major (req.header "if-modified-since") (req.header "if-none-match")
    (req.header "cache-control") (some (weakETag body))

/-- The application the program serves with, in a process started on the library
`major` under `env`. -/
def application (major : Major) (env : Env) : App :=
  (index major env).server.app

/-- The default not-found response for a request, as `finalhandler` leaves it. -/
def notFound (req : Request) : Response :=
  { statusCode := 404, contentType := some "text/html; charset=utf-8", etag := none,
    allow := none,
    body := if req.method = .HEAD then .text "" else .errorDocument req.method req.path }

/-- The pathnames on which the route `/` answers: `/`, and on version 5 also `//`. -/
def reachesRoot (major : Major) (pathname : String) : Bool :=
  decide (pathname = "/") || (decide (major = .v5) && decide (pathname = "//"))

/-- The automatic answer to `OPTIONS` on the route `/`, whose methods are `GET` and
the implied `HEAD`. -/
def optionsAnswer (major : Major) : Response :=
  match major with
  | .v4 =>
    { statusCode := 200, contentType := some "text/html; charset=utf-8",
      etag := some (weakETag "GET,HEAD"), allow := some "GET,HEAD", body := .text "GET,HEAD" }
  | .v5 =>
    { statusCode := 200, contentType := some "text/plain", etag := none,
      allow := some "GET, HEAD", body := .text "GET, HEAD" }

/-! ## Sample inputs -/

/-- An environment with nothing set. -/
def emptyEnv : Env := { vars := [], argv := [], files := [] }

/-- A production-style environment. -/
def productionEnv : Env :=
  { vars := [("NODE_ENV", "production"), ("PORT", "8080")], argv := ["--port", "8080"],
    files := [(".env", "PORT=8080")] }

/-- A bare request with the given method and pathname. -/
def mkRequest (m : Method) (path : String) (h : path ≠ "") (headers : List (String × String)) :
    Request :=
  { method := m, path := path, path_ne := h, query := "", headers := headers, body := "" }

/-- The request `GET /`, as `curl` sends it. -/
def plainGet : Request :=
  mkRequest .GET "/" (by decide) [("host", "localhost:3000"), ("accept", "*/*")]

/-- The request `GET /` carrying `If-None-Match: *`. -/
def conditionalGet : Request :=
  mkRequest .GET "/" (by decide) [("host", "localhost:3000"), ("if-none-match", "*")]

/-- The request `GET /?v=1` of a client revalidating its cache. -/
def revalidatingGet : Request :=
  { method := .GET, path := "/", path_ne := by decide, query := "v=1",
    headers := [("host", "localhost:3000"), ("if-none-match", "*")], body := "" }

/-- The request `GET /` of a browser reloading the page with a wildcard validator. -/
def cachedGet : Request :=
  mkRequest .GET "/" (by decide)
    [("host", "localhost:3000"), ("cache-control", "max-age=0"), ("if-none-match", "*")]

/-- The request `GET //`. -/
def doubleSlashGet : Request :=
  mkRequest .GET "//" (by decide) [("host", "localhost:3000"), ("accept", "*/*")]

/-- The request `HEAD /` carrying `If-None-Match: *`. -/
def conditionalHead : Request :=
  mkRequest .HEAD "/" (by decide) [("host", "localhost:3000"), ("if-none-match", "*")]

/-- The request `HEAD /`. -/
def headRoot : Request :=
  mkRequest .HEAD "/" (by decide) [("host", "localhost:3000")]

/-- The request `OPTIONS /`. -/
def optionsRoot : Request :=
  mkRequest .OPTIONS "/" (by decide) [("host", "localhost:3000")]

/-- The request `POST /` with a body. -/
def postRoot : Request :=
  { method := .POST, path := "/", path_ne := by decide, query := "",
    headers := [("host", "localhost:3000"), ("content-type", "application/json")],
    body := "\x7b\"a\":1\x7d" }

/-- The request `GET /missing`. -/
def getMissing : Request :=
  mkRequest .GET "/missing" (by decide) [("host", "localhost:3000")]

/-! ## Lemmas on the library layer -/

/-- Lower-casing yields a slash only from a slash. -/
theorem toLower_eq_slash (c : Char) (h : c.toLower = '/') : c = '/' := by
  unfold Char.toLower at h
  simp only at h
  by_cases hc : c.toNat ≥ 65 ∧ c.toNat ≤ 90
  · exfalso
    rw [if_pos hc] at h
    obtain ⟨h1, h2⟩ := hc
    generalize c.toNat = n at h h1 h2
    interval_cases n <;> revert h <;> decide
  · rw [if_neg hc] at h
    exact h

/-- A lower-cased pathname is `/` only if the pathname is `/`. -/
theorem lowerAscii_eq_slash (cs : List Char) : lowerAscii cs = ['/'] ↔ cs = ['/'] := by
  constructor
  · intro h
    cases cs with
    | nil => exact absurd h (by simp [lowerAscii])
    | cons c rest =>
      cases rest with
      | nil =>
        have h1 : c.toLower = '/' := by simpa [lowerAscii] using h
        rw [toLower_eq_slash c h1]
      | cons d rest2 => exact absurd h (by simp [lowerAscii])
  · intro h
    rw [h]
    rfl

/-- A lower-cased pathname is `//` only if the pathname is `//`. -/
theorem lowerAscii_eq_slashes (cs : List Char) :
    lowerAscii cs = ['/', '/'] ↔ cs = ['/', '/'] := by
  constructor
  · intro h
    cases cs with
    | nil => exact absurd h (by simp [lowerAscii])
    | cons c rest =>
      cases rest with
      | nil => exact absurd h (by simp [lowerAscii])
      | cons d rest2 =>
        cases rest2 with
        | nil =>
          have h1 : c.toLower = '/' ∧ d.toLower = '/' := by simpa [lowerAscii] using h
          rw [toLower_eq_slash c h1.1, toLower_eq_slash d h1.2]
        | cons e rest3 => exact absurd h (by simp [lowerAscii])
  · intro h
    rw [h]
    rfl

/-- A string is the literal with the given characters exactly when its characters
are those. -/
theorem string_eq_iff_data (p : String) (cs : List Char) : p = String.mk cs ↔ p.data = cs := by
  constructor
  · intro h
    rw [h]
  · intro h
    obtain ⟨d⟩ := p
    simp only at h
    rw [h]

/-- The route path `/` matches a non-empty pathname exactly on the pathnames of
`reachesRoot`. -/
theorem matchPath_root (v : Major) (p : String) (hne : p ≠ "") :
    matchPath v "/" p = reachesRoot v p := by
  have hd : p.data ≠ [] := fun h => hne ((string_eq_iff_data p []).2 h)
  have h1 : (p = "/") ↔ p.data = ['/'] := string_eq_iff_data p ['/']
  have h2 : (p = "//") ↔ p.data = ['/', '/'] := string_eq_iff_data p ['/', '/']
  have hnil : lowerAscii p.data ≠ [] := by
    intro h
    exact hd (by simpa [lowerAscii] using h)
  cases v with
  | v4 =>
    have hbase : matchPath .v4 "/" p =
        (lowerAscii p.data == [] || lowerAscii p.data == ['/']) := rfl
    rw [hbase]
    unfold reachesRoot
    by_cases hp : p.data = ['/']
    · have : p = "/" := h1.2 hp
      simp [this, lowerAscii]
    · have hp1 : ¬ p = "/" := fun h => hp (h1.1 h)
      have hl : lowerAscii p.data ≠ ['/'] := fun h => hp ((lowerAscii_eq_slash _).1 h)
      simp [hp1, hl, hnil]
  | v5 =>
    have hbase : matchPath .v5 "/" p =
        (lowerAscii p.data == ['/'] || lowerAscii p.data == ['/', '/']) := rfl
    rw [hbase]
    unfold reachesRoot
    by_cases hp : p.data = ['/']
    · have : p = "/" := h1.2 hp
      simp [this, lowerAscii]
    · have hp1 : ¬ p = "/" := fun h => hp (h1.1 h)
      have hl : lowerAscii p.data ≠ ['/'] := fun h => hp ((lowerAscii_eq_slash _).1 h)
      by_cases hq : p.data = ['/', '/']
      · have : p = "//" := h2.2 hq
        simp [this, lowerAscii]
      · have hq1 : ¬ p = "//" := fun h => hq (h2.1 h)
        have hl2 : lowerAscii p.data ≠ ['/', '/'] :=
          fun h => hq ((lowerAscii_eq_slashes _).1 h)
        simp [hp1, hq1, hl, hl2]

/-! ## Lemmas on the program -/

/-- The application generates weak entity tags, whatever the environment. -/
theorem application_settings (v : Major) (env : Env) :
    (application v env).settings.etagFn = some weakETag := rfl

/-- The application records the library it was built with. -/
theorem application_major (v : Major) (env : Env) :
    (application v env).settings.major = v := rfl

/-- The router of the application holds the single `GET /` route. -/
theorem application_router (v : Major) (env : Env) :
    (application v env).router =
      [{ path := "/", stack := [{ method := .GET, handle := handler }] }] :=
  rfl

/-- The pathname `/` reaches the route on either version. -/
theorem reachesRoot_slash (v : Major) : reachesRoot v "/" = true := by
  cases v <;> decide

/-- The four ways a request is answered: by the handler, by the automatic `OPTIONS`
answer, or (wrong method, wrong path) by `finalhandler`. -/
theorem handle_eq (v : Major) (env : Env) (req : Request) :
    (application v env).handle req =
      if reachesRoot v req.path = true then
        if req.method = .GET ∨ req.method = .HEAD then
          (handler req (ServerResponse.init (application v env).settings req)).out
        else if req.method = .OPTIONS then
          (sendOptionsResponse (ServerResponse.init (application v env).settings req)
            [.GET, .HEAD]).out
        else (finalhandler (ServerResponse.init (application v env).settings req)).out
      else (finalhandler (ServerResponse.init (application v env).settings req)).out := by
  have hmaj : (ServerResponse.init (application v env).settings req).app.major = v := rfl
  unfold App.handle
  rw [application_router]
  simp only [Router.next, hmaj, matchPath_root v _ req.path_ne]
  by_cases hp : reachesRoot v req.path = true
  · simp only [hp, if_true]
    by_cases hg : req.method = .GET
    · simp [hg, Route.handlesMethod, Route.dispatchMethod, Route.methods, Route.dispatch]
    · by_cases hh : req.method = .HEAD
      · simp [hh, Route.handlesMethod, Route.dispatchMethod, Route.methods, Route.dispatch]
      · by_cases ho : req.method = .OPTIONS
        · have hopt : appendMethods []
              (Route.options { path := "/", stack := [{ method := .GET, handle := handler }] }) =
                [.GET, .HEAD] := by decide
          simp [ho, hopt, Route.handlesMethod, Route.dispatchMethod, Route.methods]
        · simp [hg, hh, ho, Route.handlesMethod, Route.dispatchMethod, Route.methods]
  · simp [hp]

/-- On a fresh `res`, `finalhandler` leaves the not-found response. -/
theorem finalhandler_out (st : Settings) (req : Request) :
    (finalhandler (ServerResponse.init st req)).out = notFound req := rfl

/-- What the handler leaves on a fresh `res` for a `GET` or `HEAD` request. -/
theorem handler_out (st : Settings) (req : Request) (hst : st.etagFn = some weakETag)
    (hm : req.method = .GET ∨ req.method = .HEAD) :
    (handler req (ServerResponse.init st req)).out =
      if req.revalidates st.major greeting = true then
        { statusCode := 304, contentType := none, etag := some (weakETag greeting),
          allow := none, body := .text "" }
      else
        { statusCode := 200, contentType := some "text/html; charset=utf-8",
          etag := some (weakETag greeting), allow := none,
          body := .text (if req.method = .HEAD then "" else greeting) } := by
  have hlit : greeting = "Hello, DevOps with CI/CD!" := rfl
  rw [hlit]
  have hfresh : ∀ out : Response, out.statusCode = 200 →
      out.etag = some (weakETag "Hello, DevOps with CI/CD!") →
      ServerResponse.fresh { req := req, app := st, out := out } =
        req.revalidates st.major "Hello, DevOps with CI/CD!" := by
    intro out h1 h2
    unfold ServerResponse.fresh Request.revalidates
    rcases hm with h | h <;> simp [h, h1, h2]
  unfold handler ServerResponse.send ServerResponse.init
  simp only [hst, Option.getD_none]
  rw [hfresh _ rfl rfl]
  by_cases hf : req.revalidates st.major "Hello, DevOps with CI/CD!" = true
  · simp [hf]
  · simp [hf]

/-- What the automatic `OPTIONS` answer is for the methods `GET` and `HEAD`. -/
theorem options_out (st : Settings) (req : Request) (hst : st.etagFn = some weakETag)
    (hm : req.method = .OPTIONS) :
    (sendOptionsResponse (ServerResponse.init st req) [.GET, .HEAD]).out =
      optionsAnswer st.major := by
  have hmaj : (ServerResponse.init st req).app.major = st.major := rfl
  cases hv : st.major with
  | v4 =>
    have hbody : ",".intercalate ([Method.GET, Method.HEAD].map Method.name) = "GET,HEAD" := by
      decide
    unfold sendOptionsResponse
    simp only [hmaj, hv, hbody]
    unfold ServerResponse.send ServerResponse.init ServerResponse.fresh optionsAnswer
    simp [hst, hm]
  | v5 =>
    have hallow : ", ".intercalate (sortStrings ([Method.GET, Method.HEAD].map Method.name)) =
        "GET, HEAD" := by
      decide
    unfold sendOptionsResponse
    simp only [hmaj, hv, hallow]
    rfl

/-- Response to `GET` or `HEAD` on a pathname that reaches the route. -/
theorem handle_reaching_get_head (v : Major) (env : Env) (req : Request)
    (hp : reachesRoot v req.path = true) (hm : req.method = .GET ∨ req.method = .HEAD) :
    (application v env).handle req =
      if req.revalidates v greeting = true then
        { statusCode := 304, contentType := none, etag := some (weakETag greeting),
          allow := none, body := .text "" }
      else
        { statusCode := 200, contentType := some "text/html; charset=utf-8",
          etag := some (weakETag greeting), allow := none,
          body := .text (if req.method = .HEAD then "" else greeting) } := by
  rw [handle_eq, if_pos hp, if_pos hm, handler_out _ _ (application_settings v env) hm,
    application_major]

/-- Response to `GET` or `HEAD` on `/`. -/
theorem handle_root_get_head (v : Major) (env : Env) (req : Request) (hp : req.path = "/")
    (hm : req.method = .GET ∨ req.method = .HEAD) :
    (application v env).handle req =
      if req.revalidates v greeting = true then
        { statusCode := 304, contentType := none, etag := some (weakETag greeting),
          allow := none, body := .text "" }
      else
        { statusCode := 200, contentType := some "text/html; charset=utf-8",
          etag := some (weakETag greeting), allow := none,
          body := .text (if req.method = .HEAD then "" else greeting) } :=
  handle_reaching_get_head v env req (by rw [hp]; exact reachesRoot_slash v) hm

/-- Response to `OPTIONS` on a pathname that reaches the route. -/
theorem handle_reaching_options (v : Major) (env : Env) (req : Request)
    (hp : reachesRoot v req.path = true) (hm : req.method = .OPTIONS) :
    (application v env).handle req = optionsAnswer v := by
  have h1 : ¬ (req.method = .GET ∨ req.method = .HEAD) := by simp [hm]
  rw [handle_eq, if_pos hp, if_neg h1, if_pos hm,
    options_out _ _ (application_settings v env) hm, application_major]

/-- Response to any other method on a pathname that reaches the route. -/
theorem handle_reaching_other (v : Major) (env : Env) (req : Request)
    (hp : reachesRoot v req.path = true)
    (hg : req.method ≠ .GET) (hh : req.method ≠ .HEAD) (ho : req.method ≠ .OPTIONS) :
    (application v env).handle req = notFound req := by
  have h1 : ¬ (req.method = .GET ∨ req.method = .HEAD) := by simp [hg, hh]
  rw [handle_eq, if_pos hp, if_neg h1, if_neg ho, finalhandler_out]

/-- Response to a request on a pathname that does not reach the route. -/
theorem handle_other_path (v : Major) (env : Env) (req : Request)
    (hp : reachesRoot v req.path = false) :
    (application v env).handle req = notFound req := by
  have hp1 : ¬ (reachesRoot v req.path = true) := by simp [hp]
  rw [handle_eq, if_neg hp1, finalhandler_out]

/-- The body of the not-found response is never the greeting. -/
theorem notFound_body_ne (req : Request) : (notFound req).body ≠ .text greeting := by
  unfold notFound
  by_cases h : req.method = .HEAD
  · simp only [h, if_true]
    decide
  · simp [h]

/-- The response to a request is the same under any two environments. -/
theorem handle_env_irrelevant (v : Major) (env1 env2 : Env) (req : Request) :
    (application v env1).handle req = (application v env2).handle req := by
  by_cases hp : reachesRoot v req.path = true
  · by_cases hm : req.method = .GET ∨ req.method = .HEAD
    · rw [handle_reaching_get_head v env1 req hp hm, handle_reaching_get_head v env2 req hp hm]
    · have hg : req.method ≠ .GET := fun h => hm (Or.inl h)
      have hh : req.method ≠ .HEAD := fun h => hm (Or.inr h)
      by_cases ho : req.method = .OPTIONS
      · rw [handle_reaching_options v env1 req hp ho, handle_reaching_options v env2 req hp ho]
      · rw [handle_reaching_other v env1 req hp hg hh ho,
          handle_reaching_other v env2 req hp hg hh ho]
  · have hp0 : reachesRoot v req.path = false := by simpa using hp
    rw [handle_other_path v env1 req hp0, handle_other_path v env2 req hp0]

/-- A request without `If-None-Match` and `If-Modified-Since` is never fresh. -/
theorem unconditional_not_fresh (v : Major) (req : Request) (body : String)
    (h1 : req.header "if-none-match" = "") (h2 : req.header "if-modified-since" = "") :
    req.revalidates v body = false := by
  unfold Request.revalidates fresh
  simp [h1, h2]

/-- Serving requests leaves the process unchanged. -/
theorem run_fst (p : Process) (reqs : List Request) : (p.run reqs).1 = p := by
  induction reqs with
  | nil => rfl
  | cons r rest ih =>
    simp only [Process.run, Process.request]
    exact ih

/-- The responses of a run are the answers of the application, request by request. -/
theorem run_snd (p : Process) (reqs : List Request) :
    (p.run reqs).2 = reqs.map p.server.app.handle := by
  induction reqs with
  | nil => rfl
  | cons r rest ih =>
    simp only [Process.run, Process.request, List.map_cons]
    rw [ih]

/-- Binding the port does not change the application. -/
theorem listening_app (v : Major) (env : Env) :
    (index v env).listening.server.app = application v env := rfl

/-! ## The claims -/

/-- C1, as stated, fails: the request `GET /` with the header `If-None-Match: *` is a
`GET` on path `/`, yet `res.send` finds it fresh and answers with status 304 and an
empty body instead of status 200 and the greeting, on either version of the library. -/
theorem C1_conditional_get_is_304 :
    conditionalGet.method = .GET ∧ conditionalGet.path = "/" ∧
      ((application .v4 emptyEnv).handle conditionalGet).statusCode = 304 ∧
      ((application .v4 emptyEnv).handle conditionalGet).body = .text "" ∧
      ¬ (((application .v4 emptyEnv).handle conditionalGet).statusCode = 200 ∧
          ((application .v4 emptyEnv).handle conditionalGet).body =
            .text "Hello, DevOps with CI/CD!") ∧
      ((application .v5 emptyEnv).handle conditionalGet).statusCode = 304 ∧
      ((application .v5 emptyEnv).handle conditionalGet).body = .text "" := by
  decide

/-- C1 (amended): for every request whose method is GET and whose path is `/` and
that `res.send` does not find fresh (its cache validators, if it has any, are not
satisfied by the entity tag of the greeting), whatever its other headers, its query
string or its body, the response has status 200 and a body exactly equal to
`Hello, DevOps with CI/CD!`, on either version of the library. -/
theorem C1_get_root_greeting (v : Major) (env : Env) (req : Request)
    (hm : req.method = .GET) (hp : req.path = "/")
    (hf : req.revalidates v greeting = false) :
    ((application v env).handle req).statusCode = 200 ∧
      ((application v env).handle req).body = .text "Hello, DevOps with CI/CD!" := by
  rw [handle_root_get_head v env req hp (Or.inl hm)]
  have hnf : ¬ (req.revalidates v greeting = true) := by simp [hf]
  rw [if_neg hnf]
  simp [hm, greeting]

/-- Witness of C1 (amended): the plain `GET /` that `curl` sends, on both versions. -/
theorem C1_get_root_greeting_witness :
    plainGet.method = .GET ∧ plainGet.path = "/" ∧
      plainGet.revalidates .v4 greeting = false ∧ plainGet.revalidates .v5 greeting = false ∧
      (((application .v4 emptyEnv).handle plainGet).statusCode = 200 ∧
        ((application .v4 emptyEnv).handle plainGet).body = .text "Hello, DevOps with CI/CD!") ∧
      (((application .v5 emptyEnv).handle plainGet).statusCode = 200 ∧
        ((application .v5 emptyEnv).handle plainGet).body = .text "Hello, DevOps with CI/CD!") :=
  ⟨by decide, by decide, by decide, by decide,
    C1_get_root_greeting .v4 emptyEnv plainGet (by decide) (by decide) (by decide),
    C1_get_root_greeting .v5 emptyEnv plainGet (by decide) (by decide) (by decide)⟩

/-- C2, as stated, fails: the request `GET //` has a path other than `/`, yet on
version 5 of the library the route `/` matches it and the handler answers with status
200 and the greeting. -/
theorem C2_double_slash_gets_greeting :
    doubleSlashGet.method = .GET ∧ doubleSlashGet.path = "//" ∧ doubleSlashGet.path ≠ "/" ∧
      ((application .v5 emptyEnv).handle doubleSlashGet).statusCode = 200 ∧
      ((application .v5 emptyEnv).handle doubleSlashGet).body =
        .text "Hello, DevOps with CI/CD!" := by
  decide

/-- C2 (amended): for every request whose path is not `/` and, when the library is
version 5, not `//` either, no registered handler matches: the response is the default
not-found response of the serving layer, its status is 404 and its body is not the
greeting string. -/
theorem C2_other_path_not_found (v : Major) (env : Env) (req : Request)
    (hp : req.path ≠ "/") (hpp : v = .v5 → req.path ≠ "//") :
    (application v env).handle req = notFound req ∧
      (application v env).handle req =
        (finalhandler (ServerResponse.init (application v env).settings req)).out ∧
      ((application v env).handle req).statusCode = 404 ∧
      ((application v env).handle req).body ≠ .text "Hello, DevOps with CI/CD!" := by
  have hr : reachesRoot v req.path = false := by
    unfold reachesRoot
    cases v with
    | v4 => simp [hp]
    | v5 => simp [hp, hpp rfl]
  have h := handle_other_path v env req hr
  refine ⟨h, ?_, ?_, ?_⟩
  · rw [h, finalhandler_out]
  · rw [h]
    rfl
  · rw [h]
    exact notFound_body_ne req

/-- Witness of C2 (amended): the request `GET /missing` on version 5, and the request
`GET //` on version 4. -/
theorem C2_other_path_not_found_witness :
    getMissing.path ≠ "/" ∧ getMissing.path ≠ "//" ∧
      ((application .v5 emptyEnv).handle getMissing).statusCode = 404 ∧
      ((application .v5 emptyEnv).handle getMissing).body ≠ .text "Hello, DevOps with CI/CD!" ∧
      doubleSlashGet.path ≠ "/" ∧
      ((application .v4 emptyEnv).handle doubleSlashGet).statusCode = 404 ∧
      ((application .v4 emptyEnv).handle doubleSlashGet).body ≠
        .text "Hello, DevOps with CI/CD!" :=
  ⟨by decide, by decide,
    (C2_other_path_not_found .v5 emptyEnv getMissing (by decide) (fun _ => by decide)).2.2.1,
    (C2_other_path_not_found .v5 emptyEnv getMissing (by decide) (fun _ => by decide)).2.2.2,
    by decide,
    (C2_other_path_not_found .v4 emptyEnv doubleSlashGet (by decide)
      (fun h => absurd h (by decide))).2.2.1,
    (C2_other_path_not_found .v4 emptyEnv doubleSlashGet (by decide)
      (fun h => absurd h (by decide))).2.2.2⟩

/-- C3, as stated, fails: the request `HEAD /` is on path `/` with a method other than
GET, yet the router dispatches it to the GET handler: the status is 200, not the 404
of the default no-match response, on either version of the library. -/
theorem C3_head_reaches_get_handler :
    headRoot.path = "/" ∧ headRoot.method ≠ .GET ∧
      ((application .v4 emptyEnv).handle headRoot).statusCode = 200 ∧
      (notFound headRoot).statusCode = 404 ∧
      ((application .v4 emptyEnv).handle headRoot).statusCode ≠ (notFound headRoot).statusCode ∧
      ((application .v5 emptyEnv).handle headRoot).statusCode = 200 := by
  decide

/-- C3 (amended): for every request to path `/` whose method is other than GET, on
either version of the library:

* the body is not the greeting;
* if the method is HEAD, the router dispatches the request to the GET handler: the
  response is the one the same request would receive as a GET (status 200, or 304
  when the request is fresh, and the same headers) with the body left out, and it is
  not the default no-match response;
* if the method is OPTIONS, the router answers itself with status 200 and an `Allow`
  header that lists GET and HEAD, which is not the default no-match response either;
* for every other method the response is the default no-match response, with
  status 404. -/
theorem C3_root_other_method (v : Major) (env : Env) (req : Request)
    (hp : req.path = "/") (hg : req.method ≠ .GET) :
    ((application v env).handle req).body ≠ .text "Hello, DevOps with CI/CD!" ∧
      (req.method = .HEAD →
        (application v env).handle req =
          (handler req (ServerResponse.init (application v env).settings req)).out ∧
        (application v env).handle req =
          { (application v env).handle { req with method := .GET } with body := .text "" } ∧
        ((application v env).handle req).statusCode =
          (if req.revalidates v greeting = true then 304 else 200) ∧
        (application v env).handle req ≠ notFound req) ∧
      (req.method = .OPTIONS →
        ((application v env).handle req).statusCode = 200 ∧
        ((application v env).handle req).allow.map parseTokenList = some ["GET", "HEAD"] ∧
        (application v env).handle req ≠ notFound req) ∧
      (req.method ≠ .HEAD → req.method ≠ .OPTIONS →
        (application v env).handle req = notFound req ∧
        ((application v env).handle req).statusCode = 404) := by
  have hr : reachesRoot v req.path = true := by
    rw [hp]
    exact reachesRoot_slash v
  refine ⟨?_, ?_, ?_, ?_⟩
  · by_cases hh : req.method = .HEAD
    · rw [handle_root_get_head v env req hp (Or.inr hh)]
      by_cases hf : req.revalidates v greeting = true
      · simp only [hf, if_true]
        decide
      · simp only [hf, hh, if_true]
        decide
    · by_cases ho : req.method = .OPTIONS
      · rw [handle_reaching_options v env req hr ho]
        cases v <;> decide
      · rw [handle_reaching_other v env req hr hg hh ho]
        exact notFound_body_ne req
  · intro hh
    have hget : ({ req with method := Method.GET } : Request).revalidates v greeting =
        req.revalidates v greeting := rfl
    have h1 := handle_root_get_head v env req hp (Or.inr hh)
    have h2 := handle_root_get_head v env { req with method := .GET } hp (Or.inl rfl)
    rw [hget] at h2
    refine ⟨?_, ?_, ?_, ?_⟩
    · rw [handle_eq, if_pos hr, if_pos (Or.inr hh)]
    · rw [h1, h2]
      by_cases hf : req.revalidates v greeting = true
      · simp [hf]
      · simp [hf, hh]
    · rw [h1]
      by_cases hf : req.revalidates v greeting = true
      · simp [hf]
      · simp [hf]
    · rw [h1]
      intro hnf
      have hs := congrArg Response.statusCode hnf
      by_cases hf : req.revalidates v greeting = true
      · simp [hf, notFound] at hs
      · simp [hf, notFound] at hs
  · intro ho
    rw [handle_reaching_options v env req hr ho]
    refine ⟨?_, ?_, ?_⟩
    · cases v <;> rfl
    · cases v <;> decide
    · intro hnf
      have hs := congrArg Response.statusCode hnf
      cases v <;> simp [optionsAnswer, notFound] at hs
  · intro hh ho
    have h := handle_reaching_other v env req hr hg hh ho
    exact ⟨h, by rw [h]; rfl⟩

/-- Witness of C3 (amended): the requests `POST /`, `HEAD /` and `OPTIONS /`. -/
theorem C3_root_other_method_witness :
    postRoot.path = "/" ∧ postRoot.method ≠ .GET ∧ postRoot.method ≠ .HEAD ∧
      postRoot.method ≠ .OPTIONS ∧
      ((application .v4 emptyEnv).handle postRoot).body ≠ .text "Hello, DevOps with CI/CD!" ∧
      ((application .v4 emptyEnv).handle postRoot = notFound postRoot ∧
        ((application .v4 emptyEnv).handle postRoot).statusCode = 404) ∧
      headRoot.path = "/" ∧ headRoot.method = .HEAD ∧
      ((application .v5 emptyEnv).handle headRoot).statusCode =
        (if headRoot.revalidates .v5 greeting = true then 304 else 200) ∧
      optionsRoot.path = "/" ∧ optionsRoot.method = .OPTIONS ∧
      ((application .v5 emptyEnv).handle optionsRoot).statusCode = 200 :=
  ⟨by decide, by decide, by decide, by decide,
    (C3_root_other_method .v4 emptyEnv postRoot (by decide) (by decide)).1,
    (C3_root_other_method .v4 emptyEnv postRoot (by decide) (by decide)).2.2.2
      (by decide) (by decide),
    by decide, by decide,
    ((C3_root_other_method .v5 emptyEnv headRoot (by decide) (by decide)).2.1 (by decide)).2.2.1,
    by decide, by decide,
    ((C3_root_other_method .v5 emptyEnv optionsRoot (by decide) (by decide)).2.2.1
      (by decide)).1⟩

/-- C4: starting the process asks for a listener on port 3000 and has written nothing
yet; once the port is bound the output is exactly the one line
`Server running on port 3000`, the number in it being the port handed to `listen`;
the callback is one-shot and serving requests writes nothing, so that line stays the
only one.  This holds on either version of the library. -/
theorem C4_startup_port_and_log (v : Major) (env : Env) (reqs : List Request) :
    (index v env).server.port = 3000 ∧
      (index v env).stdout = [] ∧
      (index v env).listening.stdout = ["Server running on port 3000"] ∧
      (index v env).listening.stdout =
        ["Server running on port " ++ toString (index v env).server.port] ∧
      (index v env).listening.listening.stdout = ["Server running on port 3000"] ∧
      ((index v env).listening.run reqs).1.stdout = ["Server running on port 3000"] := by
  have hline : startupCallback [] = ["Server running on port 3000"] := by decide
  have hout : (index v env).listening.stdout = ["Server running on port 3000"] := hline
  refine ⟨rfl, rfl, hout, rfl, hline, ?_⟩
  rw [run_fst]
  exact hout

/-- C5, as stated, fails: the request `GET /?v=1` with `If-None-Match: *` is a `GET` on
path `/` whose response (a 304) carries no content type at all, neither `text/plain`
nor the default of the serving layer for a string body, on either version of the
library. -/
theorem C5_not_modified_has_no_content_type :
    revalidatingGet.method = .GET ∧ revalidatingGet.path = "/" ∧
      ((application .v4 emptyEnv).handle revalidatingGet).statusCode = 304 ∧
      ((application .v4 emptyEnv).handle revalidatingGet).contentType = none ∧
      ((application .v5 emptyEnv).handle revalidatingGet).statusCode = 304 ∧
      ((application .v5 emptyEnv).handle revalidatingGet).contentType = none := by
  decide

/-- C5 (amended): every response with status 200 to a GET on `/` carries the content
type `text/html; charset=utf-8`, the default of `res.send` for a string body (and so
not `text/plain`), on either version of the library. -/
theorem C5_get_root_content_type (v : Major) (env : Env) (req : Request)
    (hm : req.method = .GET) (hp : req.path = "/")
    (hs : ((application v env).handle req).statusCode = 200) :
    ((application v env).handle req).contentType = some "text/html; charset=utf-8" ∧
      ((application v env).handle req).contentType ≠ some "text/plain" := by
  rw [handle_root_get_head v env req hp (Or.inl hm)] at hs ⊢
  by_cases hf : req.revalidates v greeting = true
  · rw [if_pos hf] at hs
    exact absurd hs (by decide)
  · rw [if_neg hf]
    refine ⟨rfl, ?_⟩
    show (some "text/html; charset=utf-8" : Option String) ≠ some "text/plain"
    decide

/-- Witness of C5 (amended): the plain `GET /`, answered with status 200. -/
theorem C5_get_root_content_type_witness :
    plainGet.method = .GET ∧ plainGet.path = "/" ∧
      ((application .v4 productionEnv).handle plainGet).statusCode = 200 ∧
      ((application .v4 productionEnv).handle plainGet).contentType =
        some "text/html; charset=utf-8" ∧
      ((application .v5 productionEnv).handle plainGet).statusCode = 200 ∧
      ((application .v5 productionEnv).handle plainGet).contentType =
        some "text/html; charset=utf-8" :=
  ⟨by decide, by decide, by decide,
    (C5_get_root_content_type .v4 productionEnv plainGet (by decide) (by decide) (by decide)).1,
    by decide,
    (C5_get_root_content_type .v5 productionEnv plainGet (by decide) (by decide) (by decide)).1⟩

/-- C6, as stated, fails in its last part: in two runs under different environments
the port is 3000 and the request `GET /` with `If-None-Match: *` receives the same
response, but that response is a 304 with an empty body, not the greeting, on either
version of the library. -/
theorem C6_conditional_get_same_but_not_greeting :
    (application .v4 emptyEnv).settings.env ≠ (application .v4 productionEnv).settings.env ∧
      (index .v4 emptyEnv).server.port = 3000 ∧ (index .v4 productionEnv).server.port = 3000 ∧
      conditionalGet.method = .GET ∧ conditionalGet.path = "/" ∧
      ((application .v4 emptyEnv).handle conditionalGet).body = .text "" ∧
      ((application .v4 productionEnv).handle conditionalGet).body = .text "" ∧
      ((application .v4 productionEnv).handle conditionalGet).body ≠
        .text "Hello, DevOps with CI/CD!" ∧
      ((application .v5 emptyEnv).handle conditionalGet).body = .text "" ∧
      ((application .v5 productionEnv).handle conditionalGet).body = .text "" := by
  decide

/-- C6 (amended): the port and the responses do not depend on the process
environment.  On either version of the library, for any two environments (variables,
arguments, files) the port asked for is 3000 in both runs, the startup output is the
same, every request receives the same response in both runs, and a GET on `/` that
`res.send` does not find fresh receives the greeting in both. -/
theorem C6_environment_independent (v : Major) (env1 env2 : Env) (req : Request) :
    (index v env1).server.port = 3000 ∧ (index v env2).server.port = 3000 ∧
      (index v env1).listening.stdout = (index v env2).listening.stdout ∧
      (application v env1).handle req = (application v env2).handle req ∧
      (req.method = .GET → req.path = "/" → req.revalidates v greeting = false →
        ((application v env1).handle req).body = .text "Hello, DevOps with CI/CD!" ∧
        ((application v env2).handle req).body = .text "Hello, DevOps with CI/CD!") := by
  refine ⟨rfl, rfl, rfl, handle_env_irrelevant v env1 env2 req, ?_⟩
  intro hm hp hf
  have hnf : ¬ (req.revalidates v greeting = true) := by simp [hf]
  rw [handle_root_get_head v env1 req hp (Or.inl hm),
    handle_root_get_head v env2 req hp (Or.inl hm), if_neg hnf]
  simp [hm, greeting]

/-- Witness of C6 (amended): an empty and a production-style environment, which give
the application different settings but the same port and the same response to
`GET /`. -/
theorem C6_environment_independent_witness :
    (application .v4 emptyEnv).settings.env ≠ (application .v4 productionEnv).settings.env ∧
      (index .v4 emptyEnv).server.port = 3000 ∧ (index .v4 productionEnv).server.port = 3000 ∧
      (application .v4 emptyEnv).handle plainGet = (application .v4 productionEnv).handle plainGet ∧
      plainGet.method = .GET ∧ plainGet.path = "/" ∧ plainGet.revalidates .v5 greeting = false ∧
      ((application .v5 productionEnv).handle plainGet).body =
        .text "Hello, DevOps with CI/CD!" :=
  ⟨by decide,
    (C6_environment_independent .v4 emptyEnv productionEnv plainGet).1,
    (C6_environment_independent .v4 emptyEnv productionEnv plainGet).2.1,
    (C6_environment_independent .v4 emptyEnv productionEnv plainGet).2.2.2.1,
    by decide, by decide, by decide,
    ((C6_environment_independent .v5 emptyEnv productionEnv plainGet).2.2.2.2
      (by decide) (by decide) (by decide)).2⟩

/-- C8, as stated, fails: `GET /` as `curl` sends it and `GET /` with
`If-None-Match: *` both reach the handler (method GET, path `/`), yet the first is
answered with status 200 and the greeting and the second with status 304 and an
empty body, on either version of the library. -/
theorem C8_two_gets_differ :
    plainGet.method = .GET ∧ plainGet.path = "/" ∧
      cachedGet.method = .GET ∧ cachedGet.path = "/" ∧
      ((application .v4 emptyEnv).handle plainGet).statusCode = 200 ∧
      ((application .v4 emptyEnv).handle cachedGet).statusCode = 304 ∧
      ((application .v4 emptyEnv).handle plainGet).body ≠
        ((application .v4 emptyEnv).handle cachedGet).body ∧
      ((application .v5 emptyEnv).handle plainGet).statusCode = 200 ∧
      ((application .v5 emptyEnv).handle cachedGet).statusCode = 304 := by
  decide

/-- C8 (amended): the handler keeps no state and looks at nothing in the request; the
`res.send` it calls looks at the method (GET or HEAD) and at the freshness of the
request only.  So, on either version of the library, two requests that reach the
handler with the same method and the same freshness receive identical responses,
whatever else they carry and whatever requests were served before them, in any number
and order; each response is what the application answers to that request alone, and
serving leaves the process as it was. -/
theorem C8_handler_stateless (v : Major) (env : Env) (before1 before2 : List Request)
    (r1 r2 : Request)
    (hp1 : r1.path = "/") (hp2 : r2.path = "/")
    (hm1 : r1.method = .GET ∨ r1.method = .HEAD) (hm : r1.method = r2.method)
    (hf : r1.revalidates v greeting = r2.revalidates v greeting) :
    ((index v env).listening.run (before1 ++ [r1])).2.getLast? =
        ((index v env).listening.run (before2 ++ [r2])).2.getLast? ∧
      ((index v env).listening.run (before1 ++ [r1])).2.getLast? =
        some ((application v env).handle r1) ∧
      ((index v env).listening.run (before1 ++ [r1])).1 = (index v env).listening := by
  have hm2 : r2.method = .GET ∨ r2.method = .HEAD := by
    rw [← hm]
    exact hm1
  have heq : (application v env).handle r1 = (application v env).handle r2 := by
    rw [handle_root_get_head v env r1 hp1 hm1, handle_root_get_head v env r2 hp2 hm2, hf, hm]
  refine ⟨?_, ?_, run_fst _ _⟩
  · rw [run_snd, run_snd, listening_app]
    simp [heq]
  · rw [run_snd, listening_app]
    simp

/-- Witness of C8 (amended): two unconditional `GET /` requests that differ in query
string, headers and body, served after different histories. -/
theorem C8_handler_stateless_witness :
    plainGet.path = "/" ∧ ({ plainGet with query := "a=1", body := "x" } : Request).path = "/" ∧
      ((index .v4 emptyEnv).listening.run ([postRoot, conditionalGet] ++ [plainGet])).2.getLast? =
        ((index .v4 emptyEnv).listening.run
          ([] ++ [({ plainGet with query := "a=1", body := "x" } : Request)])).2.getLast? ∧
      ((index .v5 emptyEnv).listening.run ([postRoot, conditionalGet] ++ [plainGet])).2.getLast? =
        ((index .v5 emptyEnv).listening.run
          ([] ++ [({ plainGet with query := "a=1", body := "x" } : Request)])).2.getLast? :=
  ⟨by decide, by decide,
    (C8_handler_stateless .v4 emptyEnv [postRoot, conditionalGet] []
      plainGet { plainGet with query := "a=1", body := "x" }
      (by decide) (by decide) (by decide) (by decide) (by decide)).1,
    (C8_handler_stateless .v5 emptyEnv [postRoot, conditionalGet] []
      plainGet { plainGet with query := "a=1", body := "x" }
      (by decide) (by decide) (by decide) (by decide) (by decide)).1⟩

end NodeCiCd
